import Mathlib

/-
  Verification development for the adaptive frame-selection pipeline of the
  Photogrammetry-CLI repository (scripts/video_to_images_generator.py).

  The two functions under study are extract_frames (lines 7-97) and
  calculate_overlap_percentage (lines 100-133).  Machine images are modelled
  as rectangular rasters given by their row and column counts together with a
  pixel function; the OpenCV and scikit-image primitives the code calls are
  modelled as explicit functions, fallible ones returning Except.  The video
  decoding loop of extract_frames is modelled as a fuel-indexed iteration of
  an explicit step function on a loop state that records the Python local
  variables (count, frame_num, extracted_frames, prev_frame) together with
  the trace of file writes and of sampled frame indices.
-/

set_option autoImplicit false

/-- Error conditions of the comparison primitives: the only structural
failure a comparison can signal is a shape mismatch between its inputs
(raised by cv2.absdiff respectively skimage structural_similarity). -/
inductive CVError where
  | dimMismatch
  deriving DecidableEq, Repr

/-- A BGR pixel as stored by OpenCV: (blue, green, red) channel values. -/
abbrev Pixel := Nat × Nat × Nat

/-- A decoded colour frame: a rows x cols raster of BGR pixels. -/
structure Img where
  rows : Nat
  cols : Nat
  px : Nat → Nat → Pixel

/-- A single-channel (grayscale) image. -/
structure GrayImg where
  rows : Nat
  cols : Nat
  px : Nat → Nat → Nat

/-- Luminance of one BGR pixel, as computed by cv2.cvtColor with
COLOR_BGR2GRAY: the fixed-point form of 0.114 B + 0.587 G + 0.299 R used by
OpenCV (14-bit coefficients, round to nearest). -/
def grayOfPixel (p : Pixel) : Nat :=
  (1868 * p.1 + 9617 * p.2.1 + 4899 * p.2.2 + 8192) / 16384

/-- cv2.cvtColor(image, cv2.COLOR_BGR2GRAY): pointwise luminance, shape
preserved. -/
def cvtColorBGR2GRAY (im : Img) : GrayImg :=
  ⟨im.rows, im.cols, fun i j => grayOfPixel (im.px i j)⟩

/-- cv2.absdiff on two grayscale images: pointwise absolute difference.
Signals a dimension mismatch when the two shapes differ (cv2 raises in that
case rather than coercing). -/
def absdiff (a b : GrayImg) : Except CVError GrayImg :=
  if a.rows = b.rows ∧ a.cols = b.cols then
    .ok ⟨a.rows, a.cols, fun i j => max (a.px i j) (b.px i j) - min (a.px i j) (b.px i j)⟩
  else .error .dimMismatch

/-- cv2.countNonZero: number of positions inside the raster whose value is
non-zero. -/
def countNonZero (d : GrayImg) : Nat :=
  ((List.range d.rows).map (fun i =>
    ((List.range d.cols).filter (fun j => d.px i j ≠ 0)).length)).sum

/-- calculate_overlap_percentage (source lines 100-133): convert both images
to grayscale, take the absolute difference, count differing pixels, and
return (total_pixels - non_zero_pixels) / total_pixels * 100 with
total_pixels = image1.shape[0] * image1.shape[1]. -/
def calculate_overlap_percentage (image1 image2 : Img) : Except CVError ℚ :=
  let gray_image1 := cvtColorBGR2GRAY image1
  let gray_image2 := cvtColorBGR2GRAY image2
  match absdiff gray_image1 gray_image2 with
  | .error e => .error e
  | .ok diff =>
    let non_zero_pixels := countNonZero diff
    let total_pixels := image1.rows * image1.cols
    .ok (((total_pixels : ℚ) - (non_zero_pixels : ℚ)) / (total_pixels : ℚ) * 100)

/-- Modelled from the spec: the external skimage.metrics.structural_similarity
primitive, which is not part of this repository.  Per spec section 4.2 it is a
pure deterministic score on two equal-dimension grayscale images and fails
with a dimension mismatch if the shapes differ; the numeric score on equal
shapes is the library computation, abstracted here as the parameter. -/
def structural_similarity (score : GrayImg → GrayImg → ℚ) (a b : GrayImg) :
    Except CVError ℚ :=
  if a.rows = b.rows ∧ a.cols = b.cols then .ok (score a b) else .error .dimMismatch

/-- The tunable parameters of extract_frames (source line 7): max_frames
(default 100), max_overlap_percentage (default 6), ssim_threshold
(default 0.95).  Paths are not modelled; the output folder is modelled by
the trace of writes. -/
structure ExtractionConfig where
  max_frames : Nat
  max_overlap_percentage : ℚ
  ssim_threshold : ℚ

/-- The video source opened by cv2.VideoCapture: its reported total frame
count (CAP_PROP_FRAME_COUNT) and the seek-and-decode operation
(cap.set(CAP_PROP_POS_FRAMES, n) followed by cap.read(); none models
ret = False). -/
structure Video where
  total_frames : Nat
  readFrame : Nat → Option Img

/-- The local state of the extraction loop (source lines 41-45), together
with the trace of imwrite calls (filename index, frame) and the trace of
frame indices passed to cap.set. -/
structure LoopState where
  count : Nat
  frame_num : Nat
  extracted_frames : List Img
  prev_frame : Option Img
  written : List (Nat × Img)
  sampled : List Nat

/-- Initial loop state (source lines 41-45): count = 0, frame_num = 0,
extracted_frames = [], prev_frame = None, nothing written or sampled yet. -/
def initState : LoopState := ⟨0, 0, [], none, [], []⟩

/-- The inner for-loop of source lines 65-70: walk the window of recently
accepted frames in order, compare each against the candidate with
calculate_overlap_percentage(frame, existing_frame), and stop at the first
one whose overlap exceeds the bound.  Returns the overlap flag together with
the list of frames that were actually compared against; a comparison failure
propagates. -/
def overlapScan (maxOv : ℚ) (frame : Img) : List Img → Except CVError (Bool × List Img)
  | [] => .ok (false, [])
  | existing_frame :: rest =>
    match calculate_overlap_percentage frame existing_frame with
    | .error e => .error e
    | .ok overlap_percentage =>
      if overlap_percentage > maxOv then .ok (true, [existing_frame])
      else
        match overlapScan maxOv frame rest with
        | .error e => .error e
        | .ok p => .ok (p.1, existing_frame :: p.2)

/-- Source lines 64-82, the part of the loop body after the SSIM gate: scan
the last up to 10 accepted frames (extracted_frames[max(0, count - 10):]) for
overlap; if none overlaps, append the candidate, record the imwrite of
frame_{count}.jpg, and increment count; in either case set prev_frame to the
candidate and advance frame_num by the stride. -/
def overlapPhase (cfg : ExtractionConfig) (step_size : Nat) (s : LoopState)
    (smp : List Nat) (frame : Img) : Except CVError (LoopState × List Img) :=
  match overlapScan cfg.max_overlap_percentage frame
      (s.extracted_frames.drop (s.count - 10)) with
  | .error e => .error e
  | .ok p =>
    if p.1 then
      .ok ({ s with
              sampled := smp,
              prev_frame := some frame,
              frame_num := s.frame_num + step_size }, p.2)
    else
      .ok (⟨s.count + 1, s.frame_num + step_size, s.extracted_frames ++ [frame],
            some frame, s.written ++ [(s.count, frame)], smp⟩, p.2)

/-- One iteration of the while-loop body (source lines 51-82): seek to
frame_num and decode; on decode failure only advance frame_num; otherwise
apply the SSIM gate against prev_frame when it exists (rejecting, with no
overlap check, no state change and no prev_frame update, when the similarity
exceeds the threshold), and otherwise run the overlap phase.  The second
component of the result is the list of frames the candidate was
overlap-compared against during this iteration. -/
def stepBody (score : GrayImg → GrayImg → ℚ) (cfg : ExtractionConfig) (v : Video)
    (step_size : Nat) (s : LoopState) : Except CVError (LoopState × List Img) :=
  let smp := s.sampled ++ [s.frame_num]
  match v.readFrame s.frame_num with
  | none => .ok ({ s with sampled := smp, frame_num := s.frame_num + step_size }, [])
  | some frame =>
    match s.prev_frame with
    | none => overlapPhase cfg step_size s smp frame
    | some prev_frame =>
      match structural_similarity score (cvtColorBGR2GRAY prev_frame)
          (cvtColorBGR2GRAY frame) with
      | .error e => .error e
      | .ok similarity =>
        if similarity > cfg.ssim_threshold then
          .ok ({ s with sampled := smp, frame_num := s.frame_num + step_size }, [])
        else overlapPhase cfg step_size s smp frame

/-- The while-loop of source line 50, guarded by
count < max_frames and frame_num < total_frames, iterated with explicit
fuel: none means the fuel ran out with the loop still running (the source
loop has no other exit), some (.error e) a structural comparison failure
raised out of the call, and some (.ok s) normal loop exit in state s. -/
def extractLoop (score : GrayImg → GrayImg → ℚ) (cfg : ExtractionConfig) (v : Video)
    (step_size : Nat) : Nat → LoopState → Option (Except CVError LoopState)
  | 0, _ => none
  | fuel + 1, s =>
    if s.count < cfg.max_frames ∧ s.frame_num < v.total_frames then
      match stepBody score cfg v step_size s with
      | .error e => some (.error e)
      | .ok p => extractLoop score cfg v step_size fuel p.1
    else some (.ok s)

/-- extract_frames (source lines 7-97): compute the stride
step_size = total_frames // max_frames (line 39, with no clamping), run the
loop from the initial state, and return the list of extracted frames. -/
def extract_frames (score : GrayImg → GrayImg → ℚ) (cfg : ExtractionConfig)
    (v : Video) (fuel : Nat) : Option (Except CVError (List Img)) :=
  match extractLoop score cfg v (v.total_frames / cfg.max_frames) fuel initState with
  | none => none
  | some (.error e) => some (.error e)
  | some (.ok s) => some (.ok s.extracted_frames)

/-- The NoFramesExtracted condition of source lines 92-93: signalled exactly
when the finished loop extracted zero frames. -/
def noFramesExtracted (frames : List Img) : Bool := frames.length == 0

/-- Pairwise overlap property of an accepted-frame list: any two entries
whose insertion indices differ by at most 10 have an overlap percentage
within the bound (the later frame compared against the earlier one, in the
order the code performs the comparison). -/
def pairwiseOverlapOK (maxOv : ℚ) (L : List Img) : Prop :=
  ∀ i j a b, i < j → j - i ≤ 10 → L[i]? = some a → L[j]? = some b →
    ∃ q, calculate_overlap_percentage b a = .ok q ∧ q ≤ maxOv

/-- An all-black 1 x 1 frame. -/
def imgA : Img := ⟨1, 1, fun _ _ => (0, 0, 0)⟩

/-- An all-white 1 x 1 frame. -/
def imgB : Img := ⟨1, 1, fun _ _ => (255, 255, 255)⟩

/-- A 1 x 2 frame, used to exhibit dimension mismatches. -/
def imgWide : Img := ⟨1, 2, fun _ _ => (0, 0, 0)⟩

/-- A constant external similarity score of 1, the value the library returns
on two identical images. -/
def scoreOne : GrayImg → GrayImg → ℚ := fun _ _ => 1

/-- A test configuration: max_frames = 3, max_overlap_percentage = 6,
ssim_threshold = 0.95. -/
def cfgT : ExtractionConfig := ⟨3, 6, 19 / 20⟩

/-- A two-frame video whose every decode yields the same black frame. -/
def vC1 : Video := ⟨2, fun _ => some imgA⟩

/-- The default configuration of the source (line 7): max_frames = 100,
max_overlap_percentage = 6, ssim_threshold = 0.95. -/
def cfgDefault : ExtractionConfig := ⟨100, 6, 19 / 20⟩

/-- A video source that cannot be opened, or reports zero frames: OpenCV
reports CAP_PROP_FRAME_COUNT = 0 and every read fails. -/
def vEmpty : Video := ⟨0, fun _ => none⟩

/-- A one-frame video delivering the black frame. -/
def vOne : Video := ⟨1, fun _ => some imgA⟩

/-- A configuration with a budget of one frame, giving stride 1 on vOne. -/
def cfgOne : ExtractionConfig := ⟨1, 6, 19 / 20⟩

/-- The state reached after the single iteration of running vOne with
stride 1: one accepted frame, written as frame_0, cursor moved to 1. -/
def sOneFinal : LoopState := ⟨1, 1, [imgA], some imgA, [(0, imgA)], [0]⟩

/-- A loop state whose previous decoded frame is the black frame, used to
exercise the SSIM-rejection path. -/
def sSim : LoopState := ⟨0, 0, [], some imgA, [], []⟩

/-- A loop state with one accepted frame and no previous decoded frame, used
to exercise the overlap-rejection path. -/
def sOvl : LoopState := ⟨1, 5, [imgA], none, [(0, imgA)], [0]⟩

/-- A 1 x 1 grayscale image. -/
def grayA : GrayImg := ⟨1, 1, fun _ _ => 0⟩

/-- A 1 x 2 grayscale image, shape-incompatible with grayA. -/
def grayWide : GrayImg := ⟨1, 2, fun _ _ => 0⟩

/-- The overlap of the black frame with itself evaluates to 100 percent. -/
theorem overlap_imgA_imgA : calculate_overlap_percentage imgA imgA = .ok 100 := by
  simp [calculate_overlap_percentage, absdiff, countNonZero, cvtColorBGR2GRAY, imgA]

/-- Scanning a one-frame window holding a copy of the candidate reports an
overlap, having compared against exactly that frame. -/
theorem overlapScan_imgA : overlapScan 6 imgA [imgA] = .ok (true, [imgA]) := by
  simp only [overlapScan, overlap_imgA_imgA]
  rw [if_pos (by norm_num : (100 : ℚ) > 6)]

/-- The first iteration of the diverging run of claim C1: the first candidate
is accepted and frame_num stays at 0 because the stride is 0. -/
theorem stepBody_init_vC1 : stepBody scoreOne cfgT vC1 0 initState =
    .ok (⟨1, 0, [imgA], some imgA, [(0, imgA)], [0]⟩, []) := by rfl

/-- Every frame the overlap scan reports as compared against is a member of
the window it was given: the scan looks at nothing outside its window. -/
theorem overlapScan_checked_mem (m : ℚ) (f : Img) :
    ∀ (l : List Img) (b : Bool) (ch : List Img),
      overlapScan m f l = .ok (b, ch) → ∀ g ∈ ch, g ∈ l := by
  intro l
  induction l with
  | nil =>
    intro b ch h g hg
    simp only [overlapScan, Except.ok.injEq, Prod.mk.injEq] at h
    rw [← h.2] at hg
    simp at hg
  | cons e rest ih =>
    intro b ch h g hg
    simp only [overlapScan] at h
    split at h
    · cases h
    · next p heq =>
      split at h
      · simp only [Except.ok.injEq, Prod.mk.injEq] at h
        rw [← h.2] at hg
        simp only [List.mem_singleton] at hg
        rw [hg]
        exact List.mem_cons_self _ _
      · split at h
        · cases h
        · next q hq =>
          simp only [Except.ok.injEq, Prod.mk.injEq] at h
          rw [← h.2] at hg
          rcases List.mem_cons.mp hg with hge | hgm
          · rw [hge]; exact List.mem_cons_self _ _
          · exact List.mem_cons_of_mem _ (ih q.1 q.2 (by rw [hq]) g hgm)

/-- When the overlap scan reports no overlap, every frame of its window was
compared against the candidate and found within the bound. -/
theorem overlapScan_false_bound (m : ℚ) (f : Img) :
    ∀ (l ch : List Img), overlapScan m f l = .ok (false, ch) →
      ∀ g ∈ l, ∃ q, calculate_overlap_percentage f g = .ok q ∧ q ≤ m := by
  intro l
  induction l with
  | nil => intro ch _ g hg; simp at hg
  | cons e rest ih =>
    intro ch h g hg
    simp only [overlapScan] at h
    split at h
    · cases h
    · next p heq =>
      split at h
      · next hgt =>
        simp only [Except.ok.injEq, Prod.mk.injEq] at h
        cases h.1
      · next hgt =>
        split at h
        · cases h
        · next q hq =>
          simp only [Except.ok.injEq, Prod.mk.injEq] at h
          rcases List.mem_cons.mp hg with hge | hgm
          · rw [hge]
            exact ⟨p, heq, le_of_not_lt hgt⟩
          · refine ih q.2 ?_ g hgm
            rw [hq, ← h.1, Prod.mk.eta]

/-- Case analysis of the overlap phase: either the candidate overlapped some
recent accepted frame and only prev_frame and the cursor move, or it did not
and it is appended, written under index count, and count is incremented. -/
theorem overlapPhase_cases (cfg : ExtractionConfig) (k : Nat) (s : LoopState)
    (smp : List Nat) (frame : Img) (t : LoopState) (ch : List Img)
    (h : overlapPhase cfg k s smp frame = .ok (t, ch)) :
    (overlapScan cfg.max_overlap_percentage frame
        (s.extracted_frames.drop (s.count - 10)) = .ok (true, ch) ∧
      t = { s with
             sampled := smp,
             prev_frame := some frame,
             frame_num := s.frame_num + k }) ∨
    (overlapScan cfg.max_overlap_percentage frame
        (s.extracted_frames.drop (s.count - 10)) = .ok (false, ch) ∧
      t = ⟨s.count + 1, s.frame_num + k, s.extracted_frames ++ [frame],
           some frame, s.written ++ [(s.count, frame)], smp⟩) := by
  unfold overlapPhase at h
  split at h
  · cases h
  · next p hp =>
    split at h
    · next hb =>
      simp only [Except.ok.injEq, Prod.mk.injEq] at h
      left
      refine ⟨?_, h.1.symm⟩
      rw [hp, ← hb, ← h.2, Prod.mk.eta]
    · next hb =>
      simp only [Except.ok.injEq, Prod.mk.injEq] at h
      right
      refine ⟨?_, h.1.symm⟩
      rw [hp, ← h.2]
      have : p.1 = false := Bool.eq_false_iff.mpr hb
      rw [← this, Prod.mk.eta]

/-- Case analysis of one loop iteration: either the state is only advanced
(decode failure, SSIM rejection, or overlap rejection), leaving count, the
accepted list and the write trace untouched, or a decoded candidate passed
both gates and is accepted: appended, written under index count, count
incremented. -/
theorem stepBody_cases (score : GrayImg → GrayImg → ℚ) (cfg : ExtractionConfig)
    (v : Video) (k : Nat) (s t : LoopState) (ch : List Img)
    (h : stepBody score cfg v k s = .ok (t, ch)) :
    (t.count = s.count ∧ t.extracted_frames = s.extracted_frames ∧
      t.written = s.written) ∨
    (∃ frame, v.readFrame s.frame_num = some frame ∧
      overlapScan cfg.max_overlap_percentage frame
        (s.extracted_frames.drop (s.count - 10)) = .ok (false, ch) ∧
      t.count = s.count + 1 ∧
      t.extracted_frames = s.extracted_frames ++ [frame] ∧
      t.written = s.written ++ [(s.count, frame)]) := by
  unfold stepBody at h
  split at h
  · simp only [Except.ok.injEq, Prod.mk.injEq] at h
    left
    rw [← h.1]
    exact ⟨rfl, rfl, rfl⟩
  · next frame hread =>
    split at h
    · rcases overlapPhase_cases _ _ _ _ _ _ _ h with ⟨_, ht⟩ | ⟨hscan, ht⟩
      · left; rw [ht]; exact ⟨rfl, rfl, rfl⟩
      · right; exact ⟨frame, hread, hscan, by rw [ht], by rw [ht], by rw [ht]⟩
    · split at h
      · cases h
      · next sim hsim =>
        split at h
        · simp only [Except.ok.injEq, Prod.mk.injEq] at h
          left
          rw [← h.1]
          exact ⟨rfl, rfl, rfl⟩
        · rcases overlapPhase_cases _ _ _ _ _ _ _ h with ⟨_, ht⟩ | ⟨hscan, ht⟩
          · left; rw [ht]; exact ⟨rfl, rfl, rfl⟩
          · right; exact ⟨frame, hread, hscan, by rw [ht], by rw [ht], by rw [ht]⟩

/-- Any property preserved by one loop iteration (under the loop guard) holds
of the state in which the loop exits. -/
theorem extractLoop_inv (score : GrayImg → GrayImg → ℚ) (cfg : ExtractionConfig)
    (v : Video) (k : Nat) (P : LoopState → Prop)
    (hstep : ∀ s t ch, s.count < cfg.max_frames → s.frame_num < v.total_frames →
      stepBody score cfg v k s = .ok (t, ch) → P s → P t) :
    ∀ (fuel : Nat) (s u : LoopState), P s →
      extractLoop score cfg v k fuel s = some (.ok u) → P u := by
  intro fuel
  induction fuel with
  | zero => intro s u _ h; cases h
  | succ n ih =>
    intro s u hP h
    rw [extractLoop] at h
    split at h
    · next hc =>
      split at h
      · cases h
      · next p hsb =>
        exact ih p.1 u (hstep s p.1 p.2 hc.1 hc.2 (by rw [hsb]) hP) h
    · next hc =>
      simp only [Option.some.injEq, Except.ok.injEq] at h
      rw [← h]
      exact hP

/-- One iteration of the stuck run of claim C1: with stride 0 and the first
(identical) frame already accepted, the candidate at index 0 is re-decoded,
SSIM-rejected, and the cursor does not move. -/
theorem stepBody_vC1_stuck (ex : List Img) (wr : List (Nat × Img)) (sm : List Nat) :
    stepBody scoreOne cfgT vC1 0 ⟨1, 0, ex, some imgA, wr, sm⟩ =
      .ok (⟨1, 0, ex, some imgA, wr, sm ++ [0]⟩, []) := by
  unfold stepBody
  have hsim : structural_similarity scoreOne (cvtColorBGR2GRAY imgA)
      (cvtColorBGR2GRAY imgA) = .ok 1 := rfl
  simp only [vC1, hsim]
  rw [if_pos (by norm_num [cfgT] : (1 : ℚ) > cfgT.ssim_threshold)]

/-- From the stuck configuration of claim C1 the loop consumes any amount of
fuel without exiting. -/
theorem extractLoop_vC1_diverges :
    ∀ (fuel : Nat) (ex : List Img) (wr : List (Nat × Img)) (sm : List Nat),
      extractLoop scoreOne cfgT vC1 0 fuel ⟨1, 0, ex, some imgA, wr, sm⟩ = none := by
  intro fuel
  induction fuel with
  | zero => intro ex wr sm; rfl
  | succ n ih =>
    intro ex wr sm
    rw [extractLoop]
    have hc : (⟨1, 0, ex, some imgA, wr, sm⟩ : LoopState).count < cfgT.max_frames ∧
        (⟨1, 0, ex, some imgA, wr, sm⟩ : LoopState).frame_num < vC1.total_frames := by
      constructor
      · show (1 : Nat) < 3
        decide
      · show (0 : Nat) < 2
        decide
    rw [if_pos hc]
    rw [stepBody_vC1_stuck ex wr sm]
    exact ih ex wr (sm ++ [0])

/-- Claim C1: the claim states that for every video and every configuration
with max_frames >= total_frames the stride is clamped to at least 1 and the
loop terminates.  The code instead computes step_size = total_frames //
max_frames with no clamping (source line 39); on a 2-frame video of identical
frames with max_frames = 3 the stride is 0, the first candidate is accepted,
and every later iteration SSIM-rejects the same frame 0 without advancing, so
the loop never exits however much fuel it is given. -/
theorem extract_frames_stride_zero_no_termination :
    vC1.total_frames / cfgT.max_frames = 0 ∧
    ∀ fuel : Nat, extract_frames scoreOne cfgT vC1 fuel = none := by
  refine ⟨rfl, ?_⟩
  intro fuel
  unfold extract_frames
  suffices h : extractLoop scoreOne cfgT vC1 (vC1.total_frames / cfgT.max_frames)
      fuel initState = none by rw [h]
  have hk : vC1.total_frames / cfgT.max_frames = 0 := rfl
  rw [hk]
  cases fuel with
  | zero => rfl
  | succ n =>
    rw [extractLoop]
    have hc : initState.count < cfgT.max_frames ∧
        initState.frame_num < vC1.total_frames := by
      constructor
      · show (0 : Nat) < 3
        decide
      · show (0 : Nat) < 2
        decide
    rw [if_pos hc, stepBody_init_vC1]
    exact extractLoop_vC1_diverges n [imgA] [(0, imgA)] [0]

/-- Claim C2: in any loop iteration where a previous decoded frame exists,
the candidate decodes, the two frames have equal dimensions, and their SSIM
score exceeds the threshold, the iteration performs no overlap comparison
(the comparison trace of the step is empty), leaves count, the accepted
list, the write trace and prev_frame unchanged, and advances frame_num by
exactly one stride. -/
theorem stepBody_ssim_reject (score : GrayImg → GrayImg → ℚ)
    (cfg : ExtractionConfig) (v : Video) (k : Nat) (s : LoopState)
    (p frame : Img) (hprev : s.prev_frame = some p)
    (hread : v.readFrame s.frame_num = some frame)
    (hrows : p.rows = frame.rows) (hcols : p.cols = frame.cols)
    (hsim : score (cvtColorBGR2GRAY p) (cvtColorBGR2GRAY frame) >
      cfg.ssim_threshold) :
    stepBody score cfg v k s =
      .ok ({ s with
              sampled := s.sampled ++ [s.frame_num],
              frame_num := s.frame_num + k }, []) := by
  unfold stepBody
  have hok : structural_similarity score (cvtColorBGR2GRAY p)
      (cvtColorBGR2GRAY frame) =
      .ok (score (cvtColorBGR2GRAY p) (cvtColorBGR2GRAY frame)) := by
    unfold structural_similarity
    exact if_pos ⟨hrows, hcols⟩
  simp only [hread, hprev, hok]
  exact if_pos hsim

/-- Claim C2, witness: a concrete SSIM rejection with the black frame as
both previous frame and candidate, similarity 1 above the 0.95 threshold. -/
theorem stepBody_ssim_reject_witness :
    sSim.prev_frame = some imgA ∧
    vC1.readFrame sSim.frame_num = some imgA ∧
    imgA.rows = imgA.rows ∧ imgA.cols = imgA.cols ∧
    scoreOne (cvtColorBGR2GRAY imgA) (cvtColorBGR2GRAY imgA) >
      cfgT.ssim_threshold ∧
    stepBody scoreOne cfgT vC1 1 sSim =
      .ok ({ sSim with
              sampled := sSim.sampled ++ [sSim.frame_num],
              frame_num := sSim.frame_num + 1 }, []) :=
  have hs : scoreOne (cvtColorBGR2GRAY imgA) (cvtColorBGR2GRAY imgA) >
      cfgT.ssim_threshold := by norm_num [scoreOne, cfgT]
  ⟨rfl, rfl, rfl, rfl, hs,
    stepBody_ssim_reject scoreOne cfgT vC1 1 sSim imgA imgA rfl rfl rfl rfl hs⟩

/-- Claim C3: in any loop iteration whose candidate decodes and passes the
SSIM gate, the overlap comparisons are performed only against frames of the
window extracted_frames[max(0, count - 10):], which holds at most 10 frames;
and when the scan reports an overlap above the bound the candidate is not
appended (count, the accepted list and the write trace are unchanged), yet
prev_frame is still set to the candidate and frame_num advances by exactly
one stride. -/
theorem stepBody_overlap_reject (score : GrayImg → GrayImg → ℚ)
    (cfg : ExtractionConfig) (v : Video) (k : Nat) (s : LoopState)
    (frame : Img) (checked : List Img)
    (hread : v.readFrame s.frame_num = some frame)
    (hcount : s.count = s.extracted_frames.length)
    (hgate : s.prev_frame = none ∨ ∃ p, s.prev_frame = some p ∧
      p.rows = frame.rows ∧ p.cols = frame.cols ∧
      ¬(score (cvtColorBGR2GRAY p) (cvtColorBGR2GRAY frame) >
        cfg.ssim_threshold))
    (hscan : overlapScan cfg.max_overlap_percentage frame
      (s.extracted_frames.drop (s.count - 10)) = .ok (true, checked)) :
    (s.extracted_frames.drop (s.count - 10)).length ≤ 10 ∧
    (∀ g ∈ checked, g ∈ s.extracted_frames.drop (s.count - 10)) ∧
    stepBody score cfg v k s =
      .ok ({ s with
              sampled := s.sampled ++ [s.frame_num],
              prev_frame := some frame,
              frame_num := s.frame_num + k }, checked) := by
  have hop : overlapPhase cfg k s (s.sampled ++ [s.frame_num]) frame =
      .ok ({ s with
              sampled := s.sampled ++ [s.frame_num],
              prev_frame := some frame,
              frame_num := s.frame_num + k }, checked) := by
    simp only [overlapPhase, hscan]
    rfl
  refine ⟨?_, fun g hg => overlapScan_checked_mem _ _ _ _ _ hscan g hg, ?_⟩
  · rw [List.length_drop, hcount]
    omega
  · unfold stepBody
    rcases hgate with hnone | ⟨p, hp, hr, hc, hns⟩
    · simp only [hread, hnone]
      exact hop
    · have hok : structural_similarity score (cvtColorBGR2GRAY p)
          (cvtColorBGR2GRAY frame) =
          .ok (score (cvtColorBGR2GRAY p) (cvtColorBGR2GRAY frame)) := by
        unfold structural_similarity
        exact if_pos ⟨hr, hc⟩
      simp only [hread, hp, hok]
      rw [if_neg hns]
      exact hop

/-- Claim C3, witness: a concrete overlap rejection where the candidate (the
black frame again) overlaps the single accepted frame at 100 percent, above
the 6 percent bound. -/
theorem stepBody_overlap_reject_witness :
    vC1.readFrame sOvl.frame_num = some imgA ∧
    sOvl.count = sOvl.extracted_frames.length ∧
    sOvl.prev_frame = none ∧
    overlapScan cfgT.max_overlap_percentage imgA
      (sOvl.extracted_frames.drop (sOvl.count - 10)) = .ok (true, [imgA]) ∧
    ((sOvl.extracted_frames.drop (sOvl.count - 10)).length ≤ 10 ∧
      (∀ g ∈ [imgA], g ∈ sOvl.extracted_frames.drop (sOvl.count - 10)) ∧
      stepBody scoreOne cfgT vC1 1 sOvl =
        .ok ({ sOvl with
                sampled := sOvl.sampled ++ [sOvl.frame_num],
                prev_frame := some imgA,
                frame_num := sOvl.frame_num + 1 }, [imgA])) :=
  have hscan : overlapScan cfgT.max_overlap_percentage imgA
      (sOvl.extracted_frames.drop (sOvl.count - 10)) = .ok (true, [imgA]) :=
    overlapScan_imgA
  ⟨rfl, rfl, rfl, hscan,
    stepBody_overlap_reject scoreOne cfgT vC1 1 sOvl imgA [imgA] rfl rfl
      (Or.inl rfl) hscan⟩

/-- Appending a frame whose overlap against the last up to 10 entries is
within the bound preserves the pairwise window property. -/
theorem pairwiseOverlapOK_append (m : ℚ) (L : List Img) (f : Img)
    (hL : pairwiseOverlapOK m L)
    (hnew : ∀ g ∈ L.drop (L.length - 10),
      ∃ q, calculate_overlap_percentage f g = .ok q ∧ q ≤ m) :
    pairwiseOverlapOK m (L ++ [f]) := by
  intro i j a b hij hdiff hi hj
  have hjlen : j < L.length + 1 := by
    have := (List.getElem?_eq_some.mp hj).1
    simpa using this
  by_cases hjL : j < L.length
  · have hi' : L[i]? = some a := by
      rw [← hi]
      exact (List.getElem?_append_left (lt_trans hij hjL)).symm
    have hj' : L[j]? = some b := by
      rw [← hj]
      exact (List.getElem?_append_left hjL).symm
    exact hL i j a b hij hdiff hi' hj'
  · have hjeq : j = L.length := by omega
    rw [hjeq, List.getElem?_concat_length] at hj
    have hb : b = f := (Option.some.inj hj).symm
    have hiL : i < L.length := by omega
    have hi' : L[i]? = some a := by
      rw [← hi]
      exact (List.getElem?_append_left hiL).symm
    have hmem : a ∈ L.drop (L.length - 10) := by
      have hdi : (L.drop (L.length - 10))[i - (L.length - 10)]? = L[i]? := by
        rw [List.getElem?_drop]
        congr 1
        omega
      exact List.getElem?_mem (hdi.trans hi')
    obtain ⟨q, hq, hle⟩ := hnew a hmem
    rw [hb]
    exact ⟨q, hq, hle⟩

/-- Claim C4: from any loop state whose accepted list satisfies the window
invariant (with count equal to its length), the loop only appends to the
accepted list (entries are never removed or reordered), and on exit every
pair of accepted frames whose insertion indices differ by at most 10 has an
overlap percentage within the configured bound. -/
theorem extractLoop_window_invariant (score : GrayImg → GrayImg → ℚ)
    (cfg : ExtractionConfig) (v : Video) (k fuel : Nat) (s u : LoopState)
    (hcount : s.count = s.extracted_frames.length)
    (hinv : pairwiseOverlapOK cfg.max_overlap_percentage s.extracted_frames)
    (hrun : extractLoop score cfg v k fuel s = some (.ok u)) :
    (∃ tail, u.extracted_frames = s.extracted_frames ++ tail) ∧
    u.count = u.extracted_frames.length ∧
    pairwiseOverlapOK cfg.max_overlap_percentage u.extracted_frames := by
  refine extractLoop_inv score cfg v k
    (fun t => (∃ tail, t.extracted_frames = s.extracted_frames ++ tail) ∧
      t.count = t.extracted_frames.length ∧
      pairwiseOverlapOK cfg.max_overlap_percentage t.extracted_frames)
    ?_ fuel s u ⟨⟨[], by simp⟩, hcount, hinv⟩ hrun
  intro t t2 ch _ _ hstep hP
  obtain ⟨⟨tail, htail⟩, hcnt, hpair⟩ := hP
  rcases stepBody_cases score cfg v k t t2 ch hstep with
    ⟨hc, he, _⟩ | ⟨frame, _, hscan, hc, he, _⟩
  · exact ⟨⟨tail, by rw [he, htail]⟩, by rw [hc, he, hcnt],
      by rw [he]; exact hpair⟩
  · refine ⟨⟨tail ++ [frame], by rw [he, htail, List.append_assoc]⟩,
      by rw [hc, he]; simp [hcnt], ?_⟩
    rw [he]
    refine pairwiseOverlapOK_append _ _ _ hpair ?_
    intro g hg
    have hg' : g ∈ t.extracted_frames.drop (t.count - 10) := by
      rw [hcnt]
      exact hg
    exact overlapScan_false_bound _ _ _ _ hscan g hg'

/-- Claim C4, witness: the one-frame video run, starting from the empty
initial window. -/
theorem extractLoop_window_invariant_witness :
    initState.count = initState.extracted_frames.length ∧
    pairwiseOverlapOK cfgT.max_overlap_percentage initState.extracted_frames ∧
    extractLoop scoreOne cfgT vOne 1 2 initState = some (.ok sOneFinal) ∧
    ((∃ tail, sOneFinal.extracted_frames = initState.extracted_frames ++ tail) ∧
      sOneFinal.count = sOneFinal.extracted_frames.length ∧
      pairwiseOverlapOK cfgT.max_overlap_percentage sOneFinal.extracted_frames) :=
  have hinv : pairwiseOverlapOK cfgT.max_overlap_percentage
      initState.extracted_frames := by
    intro i j a b hij hdiff hi hj
    simp [initState] at hj
  have hrun : extractLoop scoreOne cfgT vOne 1 2 initState =
      some (.ok sOneFinal) := rfl
  ⟨rfl, hinv, hrun,
    extractLoop_window_invariant scoreOne cfgT vOne 1 2 initState sOneFinal
      rfl hinv hrun⟩

/-- Claim C5: when extract_frames returns a list of K accepted frames, the
run performed exactly K image writes, under filename indices exactly
0 .. K-1 in order (zero-based, contiguous, no gaps), the i-th accepted frame
being written under index i. -/
theorem extract_frames_filenames (score : GrayImg → GrayImg → ℚ)
    (cfg : ExtractionConfig) (v : Video) (fuel : Nat) (u : LoopState)
    (hrun : extractLoop score cfg v (v.total_frames / cfg.max_frames) fuel
      initState = some (.ok u)) :
    extract_frames score cfg v fuel = some (.ok u.extracted_frames) ∧
    u.written.map Prod.fst = List.range u.extracted_frames.length ∧
    u.written.map Prod.snd = u.extracted_frames ∧
    u.written.length = u.extracted_frames.length := by
  have hP := extractLoop_inv score cfg v (v.total_frames / cfg.max_frames)
    (fun t => t.written.map Prod.fst = List.range t.count ∧
      t.written.map Prod.snd = t.extracted_frames ∧
      t.count = t.extracted_frames.length)
    ?_ fuel initState u ⟨rfl, rfl, rfl⟩ hrun
  · obtain ⟨h1, h2, h3⟩ := hP
    refine ⟨?_, by rw [h1, h3], h2, ?_⟩
    · unfold extract_frames
      rw [hrun]
    · have := congrArg List.length h2
      simpa using this
  · intro t t2 ch _ _ hstep hP
    obtain ⟨h1, h2, h3⟩ := hP
    rcases stepBody_cases score cfg v (v.total_frames / cfg.max_frames)
        t t2 ch hstep with ⟨hc, he, hw⟩ | ⟨frame, _, _, hc, he, hw⟩
    · exact ⟨by rw [hw, hc, h1], by rw [hw, he, h2], by rw [hc, he, h3]⟩
    · refine ⟨?_, ?_, ?_⟩
      · rw [hw, hc, List.map_append, h1, List.range_succ]
        simp
      · rw [hw, he, List.map_append, h2]
        simp
      · rw [hc, he, h3]
        simp

/-- Claim C5, witness: the one-frame run writes exactly one file, frame_0,
holding the single accepted frame. -/
theorem extract_frames_filenames_witness :
    extractLoop scoreOne cfgOne vOne (vOne.total_frames / cfgOne.max_frames) 2
      initState = some (.ok sOneFinal) ∧
    (extract_frames scoreOne cfgOne vOne 2 = some (.ok sOneFinal.extracted_frames) ∧
      sOneFinal.written.map Prod.fst = List.range sOneFinal.extracted_frames.length ∧
      sOneFinal.written.map Prod.snd = sOneFinal.extracted_frames ∧
      sOneFinal.written.length = sOneFinal.extracted_frames.length) :=
  have hrun : extractLoop scoreOne cfgOne vOne (vOne.total_frames / cfgOne.max_frames)
      2 initState = some (.ok sOneFinal) := rfl
  ⟨hrun, extract_frames_filenames scoreOne cfgOne vOne 2 sOneFinal hrun⟩

/-- Claim C6: any normal return of extract_frames holds at most max_frames
frames, and the NoFramesExtracted condition of source line 92 is signalled
exactly when the returned list is empty; the empty outcome is an ordinary
return value, not an error. -/
theorem extract_frames_budget (score : GrayImg → GrayImg → ℚ)
    (cfg : ExtractionConfig) (v : Video) (fuel : Nat) (frames : List Img)
    (hrun : extract_frames score cfg v fuel = some (.ok frames)) :
    frames.length ≤ cfg.max_frames ∧
    (noFramesExtracted frames = true ↔ frames.length = 0) := by
  unfold extract_frames at hrun
  cases hL : extractLoop score cfg v (v.total_frames / cfg.max_frames) fuel
      initState with
  | none => rw [hL] at hrun; cases hrun
  | some r =>
    cases r with
    | error e => rw [hL] at hrun; cases hrun
    | ok u =>
      rw [hL] at hrun
      simp only [Option.some.injEq, Except.ok.injEq] at hrun
      have hP := extractLoop_inv score cfg v (v.total_frames / cfg.max_frames)
        (fun t => t.count ≤ cfg.max_frames ∧ t.count = t.extracted_frames.length)
        ?_ fuel initState u ⟨Nat.zero_le _, rfl⟩ hL
      · rw [← hrun]
        exact ⟨hP.2 ▸ hP.1, by simp [noFramesExtracted]⟩
      · intro t t2 ch hguard _ hstep hP
        rcases stepBody_cases score cfg v (v.total_frames / cfg.max_frames)
            t t2 ch hstep with ⟨hc, he, _⟩ | ⟨frame, _, _, hc, he, _⟩
        · exact ⟨hc ▸ hP.1, by rw [hc, he, hP.2]⟩
        · refine ⟨by omega, ?_⟩
          rw [hc, he, hP.2]
          simp

/-- Claim C6, witness: the one-frame run returns one frame, within the
budget of 3, and the empty-result condition is not signalled. -/
theorem extract_frames_budget_witness :
    extract_frames scoreOne cfgOne vOne 2 = some (.ok [imgA]) ∧
    ([imgA].length ≤ cfgOne.max_frames ∧
      (noFramesExtracted [imgA] = true ↔ [imgA].length = 0)) :=
  have hrun : extract_frames scoreOne cfgOne vOne 2 = some (.ok [imgA]) := rfl
  ⟨hrun, extract_frames_budget scoreOne cfgOne vOne 2 [imgA] hrun⟩

/-- Claim C7, counterexample: on a source that cannot be opened (OpenCV then
reports zero total frames), extract_frames does NOT fail: with the default
configuration the loop guard is false at once and the call returns normally
with the empty list, the NoFramesExtracted condition being the only signal
raised.  No SourceUnavailable failure exists anywhere in the code
(lines 33-50 perform no check on the capture). -/
theorem extract_frames_zero_total_counterexample :
    extract_frames scoreOne cfgDefault vEmpty 1 = some (.ok []) ∧
    noFramesExtracted [] = true ∧
    vEmpty.total_frames = 0 :=
  ⟨rfl, rfl, rfl⟩

/-- Claim C7, amended: when the video cannot be opened or reports zero total
frames, extract_frames runs zero loop iterations and returns the empty list
as an ordinary (recoverable) result, signalling NoFramesExtracted; it does
not propagate a fatal failure. -/
theorem extract_frames_zero_total_returns_empty (score : GrayImg → GrayImg → ℚ)
    (cfg : ExtractionConfig) (v : Video) (fuel : Nat)
    (h0 : v.total_frames = 0) (hf : 0 < fuel) :
    extract_frames score cfg v fuel = some (.ok []) ∧
    noFramesExtracted [] = true := by
  cases fuel with
  | zero => omega
  | succ n =>
    refine ⟨?_, rfl⟩
    unfold extract_frames
    rw [extractLoop]
    rw [if_neg ?_]
    · rfl
    · intro hcond
      rw [h0] at hcond
      exact Nat.not_lt_zero _ hcond.2

/-- Claim C7, witness for the amended statement. -/
theorem extract_frames_zero_total_returns_empty_witness :
    vEmpty.total_frames = 0 ∧ 0 < 2 ∧
    (extract_frames scoreOne cfgDefault vEmpty 2 = some (.ok []) ∧
      noFramesExtracted [] = true) :=
  ⟨rfl, by decide,
    extract_frames_zero_total_returns_empty scoreOne cfgDefault vEmpty 2 rfl
      (by decide)⟩

/-- Claim C8: each comparison primitive signals the dimension-mismatch
condition, rather than crashing or silently coercing, whenever its two
inputs differ in shape: calculate_overlap_percentage on two colour images of
differing dimensions, and the SSIM primitive on two grayscale images of
differing dimensions. -/
theorem dimension_mismatch_signalled (a b : Img) (g1 g2 : GrayImg)
    (score : GrayImg → GrayImg → ℚ)
    (hab : ¬(a.rows = b.rows ∧ a.cols = b.cols))
    (hg : ¬(g1.rows = g2.rows ∧ g1.cols = g2.cols)) :
    calculate_overlap_percentage a b = .error CVError.dimMismatch ∧
    structural_similarity score g1 g2 = .error CVError.dimMismatch := by
  constructor
  · have habs : absdiff (cvtColorBGR2GRAY a) (cvtColorBGR2GRAY b) =
        .error CVError.dimMismatch := by
      unfold absdiff
      exact if_neg hab
    simp only [calculate_overlap_percentage, habs]
  · unfold structural_similarity
    exact if_neg hg

/-- Claim C8, witness: a 1 x 1 against a 1 x 2 image, for both primitives. -/
theorem dimension_mismatch_signalled_witness :
    ¬(imgA.rows = imgWide.rows ∧ imgA.cols = imgWide.cols) ∧
    ¬(grayA.rows = grayWide.rows ∧ grayA.cols = grayWide.cols) ∧
    (calculate_overlap_percentage imgA imgWide = .error CVError.dimMismatch ∧
      structural_similarity scoreOne grayA grayWide =
        .error CVError.dimMismatch) :=
  ⟨by decide, by decide,
    dimension_mismatch_signalled imgA imgWide grayA grayWide scoreOne
      (by decide) (by decide)⟩

/-- Claim C9: the extraction algorithm is deterministic: two runs over video
sources that decode identically and report the same frame count, with equal
similarity scorers and equal configurations, produce identical loop results
(hence identical acceptance decisions, identical sampled frame indices and
identical write traces) and identical returned frame lists. -/
theorem extract_frames_deterministic (score1 score2 : GrayImg → GrayImg → ℚ)
    (cfg1 cfg2 : ExtractionConfig) (v1 v2 : Video) (fuel : Nat)
    (hv : ∀ n, v1.readFrame n = v2.readFrame n)
    (ht : v1.total_frames = v2.total_frames)
    (hs : ∀ a b, score1 a b = score2 a b)
    (hc : cfg1 = cfg2) :
    extractLoop score1 cfg1 v1 (v1.total_frames / cfg1.max_frames) fuel
        initState =
      extractLoop score2 cfg2 v2 (v2.total_frames / cfg2.max_frames) fuel
        initState ∧
    extract_frames score1 cfg1 v1 fuel = extract_frames score2 cfg2 v2 fuel := by
  have hvv : v1 = v2 := by
    cases v1
    cases v2
    simp only [Video.mk.injEq]
    exact ⟨ht, funext hv⟩
  have hss : score1 = score2 := funext fun a => funext fun b => hs a b
  subst hvv
  subst hss
  subst hc
  exact ⟨rfl, rfl⟩

/-- Claim C9, witness: the one-frame run compared with itself. -/
theorem extract_frames_deterministic_witness :
    (∀ n, vOne.readFrame n = vOne.readFrame n) ∧
    vOne.total_frames = vOne.total_frames ∧
    (∀ a b, scoreOne a b = scoreOne a b) ∧
    cfgOne = cfgOne ∧
    (extractLoop scoreOne cfgOne vOne (vOne.total_frames / cfgOne.max_frames) 2
        initState =
      extractLoop scoreOne cfgOne vOne (vOne.total_frames / cfgOne.max_frames) 2
        initState ∧
    extract_frames scoreOne cfgOne vOne 2 = extract_frames scoreOne cfgOne vOne 2) :=
  ⟨fun _ => rfl, rfl, fun _ _ => rfl, rfl,
    extract_frames_deterministic scoreOne scoreOne cfgOne cfgOne vOne vOne 2
      (fun _ => rfl) rfl (fun _ _ => rfl) rfl⟩

/-- Claim C10: the overlap percentage is symmetric on equal-dimension colour
images: the absolute pixel difference and its non-zero count are symmetric,
and the pixel total is taken from the first image, whose dimensions agree
with the second. -/
theorem calculate_overlap_percentage_symm (a b : Img)
    (hr : a.rows = b.rows) (hcol : a.cols = b.cols) :
    calculate_overlap_percentage a b = calculate_overlap_percentage b a := by
  have habs : absdiff (cvtColorBGR2GRAY a) (cvtColorBGR2GRAY b) =
      absdiff (cvtColorBGR2GRAY b) (cvtColorBGR2GRAY a) := by
    unfold absdiff
    rw [if_pos ⟨hr, hcol⟩, if_pos ⟨hr.symm, hcol.symm⟩]
    simp only [Except.ok.injEq, GrayImg.mk.injEq]
    refine ⟨hr, hcol, ?_⟩
    funext i j
    rw [Nat.max_comm, Nat.min_comm]
  simp only [calculate_overlap_percentage, habs, hr, hcol]

/-- Claim C10, witness: symmetry at the black and white 1 x 1 frames. -/
theorem calculate_overlap_percentage_symm_witness :
    imgA.rows = imgB.rows ∧ imgA.cols = imgB.cols ∧
    calculate_overlap_percentage imgA imgB =
      calculate_overlap_percentage imgB imgA :=
  ⟨rfl, rfl, calculate_overlap_percentage_symm imgA imgB rfl rfl⟩
